import Mathlib

/-!
Verification development for the coderr marketplace backend.

Shallow embedding of the Django application under review: the relational
store is a record of lists of rows, each endpoint handler is a Lean
function on the store translated from the corresponding view or
serializer method.  Decimal amounts are modelled as integers (only order
and minimum computations matter, never the scale); timestamps, image and
file fields, and pagination are omitted because no claim mentions them.
-/

namespace Coderr

/-- Row of django.contrib.auth.User. The password is stored hashed by
Django; the hash algorithm is irrelevant here so the raw string is kept. -/
structure UserRec where
  id : Nat
  username : String
  email : String
  password : String
  isStaff : Bool
deriving Repr, DecidableEq

/-- Row of coderr_app.models.Profil (one-to-one with User).  The
contact and location metadata columns (location, tel, description,
working_hours, file) are omitted: no claim depends on them. -/
structure Profil where
  userId : Nat
  profileType : String
deriving Repr, DecidableEq

/-- Row of coderr_app.models.Offers.  image, created_at and updated_at
omitted (no claim depends on them).  min_price and min_delivery_time have
model default 0. -/
structure Offer where
  id : Nat
  userId : Nat
  title : String
  description : String
  minPrice : Int
  minDeliveryTime : Int
deriving Repr, DecidableEq

/-- Row of coderr_app.models.OfferDetails. -/
structure OfferDetail where
  id : Nat
  offerId : Nat
  title : String
  revisions : Int
  price : Int
  deliveryTimeInDays : Int
  features : List String
  offerType : String
deriving Repr, DecidableEq

/-- A value passed for a user foreign-key column.  OrderCreateSerializer
passes the requesting user's Profil instance (not the User) for
customer_user, while business_user receives a User instance; the
constructor records which kind of object the source handed to the ORM.
Django's foreign-key descriptor accepts only a User instance here and
raises ValueError on a Profil, so a profilRef value can never actually be
persisted. -/
inductive PartyRef where
  | userRef (userId : Nat)
  | profilRef (userId : Nat)
deriving Repr, DecidableEq

/-- Row of coderr_app.models.Orders.  created_at and updated_at omitted. -/
structure Order where
  id : Nat
  customerUser : PartyRef
  businessUser : PartyRef
  title : String
  revisions : Int
  status : String
  offerType : String
  price : Int
  deliveryTimeInDays : Int
  features : List String
deriving Repr, DecidableEq

/-- Row of coderr_app.models.Reviews.  Note the model declares no unique
constraint on the (reviewer, business_user) pair. -/
structure Review where
  id : Nat
  businessUserId : Nat
  reviewerId : Nat
  rating : Int
  description : String
deriving Repr, DecidableEq

/-- The relational store backing the application. -/
structure Store where
  users : List UserRec
  profils : List Profil
  offers : List Offer
  offerDetails : List OfferDetail
  orders : List Order
  reviews : List Review
deriving Repr, DecidableEq

/-- Orders.status_choices from coderr_app/models.py. -/
def statusChoices : List String := ["in_progress", "completed", "cancelled"]

/-- UPDATE of an Offers row by primary key (instance.save()). -/
def saveOffer (s : Store) (o : Offer) : Store :=
  { s with offers := s.offers.map (fun x => if x.id == o.id then o else x) }

/-- UPDATE of an Orders row by primary key (instance.save()). -/
def saveOrder (s : Store) (o : Order) : Store :=
  { s with orders := s.orders.map (fun x => if x.id == o.id then o else x) }

/-- UPDATE of an OfferDetails row by primary key (existing_detail.save()). -/
def saveDetail (s : Store) (d : OfferDetail) : Store :=
  { s with offerDetails := s.offerDetails.map (fun x => if x.id == d.id then d else x) }

/-- UPDATE of a Reviews row by primary key (serializer.save() on update). -/
def saveReview (s : Store) (r : Review) : Store :=
  { s with reviews := s.reviews.map (fun x => if x.id == r.id then r else x) }

/-- Django Min aggregate over a column: none on an empty query set,
otherwise the least value. -/
def minAgg : List Int → Option Int
  | [] => none
  | x :: xs => some (xs.foldl min x)

/-- Python expression `v or 0` applied to an aggregate result: None and
the falsy number 0 both become 0. -/
def pyOr0 : Option Int → Int
  | none => 0
  | some v => if v = 0 then 0 else v

/-- m is the minimum of the list xs. -/
def isMinOf (m : Int) (xs : List Int) : Prop := m ∈ xs ∧ ∀ x ∈ xs, m ≤ x

/-- Shared tail of OffersSerializer.create, OffersSerializer.update and
OffersViewSet.perform_update: aggregate Min over the details of the offer,
apply `or 0`, write the two aggregate columns back and save the row. -/
def recomputeAggregates (s : Store) (inst : Offer) : Store × Offer :=
  let mine := s.offerDetails.filter (fun d => d.offerId == inst.id)
  let inst2 := { inst with
    minPrice := pyOr0 (minAgg (mine.map (fun d => d.price))),
    minDeliveryTime := pyOr0 (minAgg (mine.map (fun d => d.deliveryTimeInDays))) }
  (saveOffer s inst2, inst2)

/-- Validated payload of one nested detail in a POST /offers/ body
(OfferDetailsSerializer).  revisions, delivery_time_in_days and
offer_type carry model defaults, hence are optional in the serializer;
title, price and features are required. -/
structure DetailPayload where
  title : String
  revisions : Option Int
  price : Int
  deliveryTimeInDays : Option Int
  features : List String
  offerType : Option String
deriving Repr, DecidableEq

/-- OfferDetails.objects.create(offer=offer, **detail_data) for each
payload entry, in order, with fresh sequential primary keys. -/
def createDetails (offerId : Nat) : Nat → List DetailPayload → List OfferDetail
  | _, [] => []
  | nid, p :: ps =>
      { id := nid, offerId := offerId, title := p.title,
        revisions := p.revisions.getD 0, price := p.price,
        deliveryTimeInDays := p.deliveryTimeInDays.getD 1,
        features := p.features, offerType := p.offerType.getD "basic" }
      :: createDetails offerId (nid + 1) ps

/-- Offers.objects.create(**validated_data) with user=request.user: the
fresh row before aggregation, min fields at their model default 0. -/
def offerRowFromPayload (nextOfferId userId : Nat) (title description : String) : Offer :=
  { id := nextOfferId, userId := userId, title := title,
    description := description, minPrice := 0, minDeliveryTime := 0 }

/-- OffersSerializer.create (wrapped by OffersViewSet.perform_create,
which supplies user=request.user; image handling omitted).  The method
pops offer_details, creates the Offers row, creates one OfferDetails row
per payload entry — with no check whatsoever on how many entries there
are — then recomputes and saves the aggregates.  nextOfferId and
nextDetailId model the auto-increment primary keys. -/
def offersCreate (s : Store) (nextOfferId nextDetailId userId : Nat)
    (title description : String) (ds : List DetailPayload) : Store × Offer :=
  recomputeAggregates
    { s with offers := s.offers ++ [offerRowFromPayload nextOfferId userId title description],
             offerDetails := s.offerDetails ++ createDetails nextOfferId nextDetailId ds }
    (offerRowFromPayload nextOfferId userId title description)

/-- One entry of request.data["details"] as read raw by
OffersViewSet.perform_update.  offer_type is fetched with .get and then
checked for Python truthiness, so the empty string stands for a missing
or falsy value; every other key is optional (setattr only for present
keys on an existing detail). -/
structure DetailPatch where
  offerType : String
  title : Option String
  revisions : Option Int
  price : Option Int
  deliveryTimeInDays : Option Int
  features : Option (List String)
deriving Repr, DecidableEq

/-- setattr of each present key of the patch onto an existing detail
(the offer_type key is always present and truthy at this point). -/
def applyDetailPatchMerge (d : OfferDetail) (p : DetailPatch) : OfferDetail :=
  { d with title := p.title.getD d.title,
           revisions := p.revisions.getD d.revisions,
           price := p.price.getD d.price,
           deliveryTimeInDays := p.deliveryTimeInDays.getD d.deliveryTimeInDays,
           features := p.features.getD d.features,
           offerType := p.offerType }

/-- OfferDetails.objects.create(offer=instance, **detail_data) from a raw
patch: missing keys fall back to the model defaults (CharField implicit
empty string for title, revisions 0, delivery_time_in_days 1, features
empty list); price has no model default, so a missing price makes the
INSERT violate NOT NULL and the request fail — returned as none. -/
def detailFromPatch (offerId nextId : Nat) (p : DetailPatch) : Option OfferDetail :=
  match p.price with
  | none => none
  | some pr => some { id := nextId, offerId := offerId, title := p.title.getD "",
                      revisions := p.revisions.getD 0, price := pr,
                      deliveryTimeInDays := p.deliveryTimeInDays.getD 1,
                      features := p.features.getD [], offerType := p.offerType }

/-- Result of the detail-merge loop of OffersViewSet.perform_update. -/
inductive MergeRes where
  | validationErr
  | dbIntegrityErr
  | ok (s : Store) (processed : List String)
deriving Repr, DecidableEq

/-- The for-loop over request.data["details"] in
OffersViewSet.perform_update: for each entry require a truthy offer_type,
update the first existing detail of that offer_type in place, or create a
new one; collect the processed offer types. -/
def mergeLoop (offerId : Nat) : Store → Nat → List String → List DetailPatch → MergeRes
  | s, _, processed, [] => .ok s processed
  | s, nid, processed, p :: rest =>
    if p.offerType == "" then .validationErr
    else
      match s.offerDetails.find? (fun d => d.offerId == offerId && d.offerType == p.offerType) with
      | some d => mergeLoop offerId (saveDetail s (applyDetailPatchMerge d p)) nid (processed ++ [p.offerType]) rest
      | none =>
        match detailFromPatch offerId nid p with
        | none => .dbIntegrityErr
        | some nd => mergeLoop offerId { s with offerDetails := s.offerDetails ++ [nd] } (nid + 1) (processed ++ [p.offerType]) rest

/-- Result of an offer update request. -/
inductive OfferUpdateRes where
  | notFound
  | validationErr
  | dbIntegrityErr
  | ok (s : Store)
deriving Repr, DecidableEq

/-- The setattr loop of OffersViewSet.perform_update over the validated
standard fields (every attribute except offer_details; image handling
omitted). -/
def patchStdFields (inst : Offer) (titleP descriptionP : Option String) : Offer :=
  { inst with title := titleP.getD inst.title,
              description := descriptionP.getD inst.description }

/-- instance.offer_details.exclude(offer_type__in=processed).delete():
drop the details of this offer whose tier was not in the request. -/
def deleteStaleDetails (s : Store) (offerId : Nat) (processed : List String) : Store :=
  { s with
    offerDetails :=
      s.offerDetails.filter (fun d => !(d.offerId == offerId) || processed.contains d.offerType) }

/-- OffersViewSet.perform_update (the live update path: the overridden
update() forces partial and delegates here; OffersSerializer.update is
never called because serializer.save() is not).  Standard fields other
than offer_details are set on the instance (image handling omitted); if
request.data contains a details list, it is merged tier by tier and the
tiers of this offer that are no longer present are deleted; finally
min_price and min_delivery_time are recomputed from the surviving details
and the instance is saved. -/
def performUpdate (s : Store) (offerId nextDetailId : Nat)
    (titleP descriptionP : Option String)
    (detailsData : Option (List DetailPatch)) : OfferUpdateRes :=
  match s.offers.find? (fun o => o.id == offerId) with
  | none => .notFound
  | some inst =>
    match detailsData with
    | none => .ok (recomputeAggregates s (patchStdFields inst titleP descriptionP)).1
    | some ps =>
      match mergeLoop offerId s nextDetailId [] ps with
      | .validationErr => .validationErr
      | .dbIntegrityErr => .dbIntegrityErr
      | .ok s3 processed =>
        .ok (recomputeAggregates (deleteStaleDetails s3 offerId processed)
              (patchStdFields inst titleP descriptionP)).1

/-- Payload of a PATCH /orders/pk/ request.  OrdersViewSet.update reads
only request.data.get("status"); any other key in the body is never
looked at, which the unused extra field records. -/
structure OrdersPatch where
  status : Option String
  extra : List (String × String)
deriving Repr, DecidableEq

/-- Result of OrdersViewSet.update. -/
inductive OrdersUpdateRes where
  | notFound
  | badRequest (allowed : List String)
  | ok (s : Store) (o : Order)
deriving Repr, DecidableEq

/-- OrdersViewSet.update: fetch the order (404 when absent), reject with
400 when the supplied status is not one of Orders.status_choices (a
missing status is likewise not in the list), otherwise overwrite the
status field — and nothing else — and save. -/
def ordersUpdate (s : Store) (orderId : Nat) (payload : OrdersPatch) : OrdersUpdateRes :=
  match s.orders.find? (fun o => o.id == orderId) with
  | none => .notFound
  | some inst =>
    match payload.status with
    | none => .badRequest statusChoices
    | some ns =>
      if statusChoices.contains ns then
        let inst2 := { inst with status := ns }
        .ok (saveOrder s inst2) inst2
      else .badRequest statusChoices

/-- Result of OrderCreateSerializer.create. -/
inductive OrderCreateRes where
  | err (msg : String)
  | ok (o : Order)
deriving Repr, DecidableEq

/-- OrderCreateSerializer.create (invoked from OrdersViewSet.create after
validation): resolve the OfferDetails row, resolve the requesting user's
Profil, then build the Orders row, copying title from
offer_detail.offer.title (the parent Offer's title, not the detail's own)
and the remaining snapshot fields from the detail, with
customer_user := the Profil instance itself and
business_user := offer_detail.offer.user.  The parent-offer lookup is a
foreign key dereference, which cannot fail on a consistent store.
Django's foreign-key descriptor would reject the Profil passed for
customer_user with ValueError at this point; the embedding records the
row the code attempts to insert. -/
def orderCreate (s : Store) (nextOrderId : Nat) (requester : UserRec)
    (offerDetailId : Nat) : Store × OrderCreateRes :=
  match s.offerDetails.find? (fun d => d.id == offerDetailId) with
  | none => (s, .err "OfferDetail not found")
  | some od =>
    match s.profils.find? (fun p => p.userId == requester.id) with
    | none => (s, .err "Customer profile not found")
    | some customerProfile =>
      match s.offers.find? (fun o => o.id == od.offerId) with
      | none => (s, .err "foreign key violation")
      | some parent =>
        let o : Order := { id := nextOrderId,
                           customerUser := .profilRef customerProfile.userId,
                           businessUser := .userRef parent.userId,
                           title := parent.title,
                           revisions := od.revisions,
                           deliveryTimeInDays := od.deliveryTimeInDays,
                           price := od.price,
                           features := od.features,
                           offerType := od.offerType,
                           status := "in_progress" }
        ({ s with orders := s.orders ++ [o] }, .ok o)

/-- Result of GET /profiles/business/. -/
inductive ProfilesListRes where
  | err (code : Nat)
  | ok (profils : List Profil)
deriving Repr, DecidableEq

/-- BusinessProfilesListView: permission_classes = [IsAuthenticated], so
an unauthenticated request is rejected with 401 before the queryset
(Profil.objects.filter(profile_type="business")) is evaluated. -/
def businessProfilesList (s : Store) (requester : Option UserRec) : ProfilesListRes :=
  match requester with
  | none => .err 401
  | some _ => .ok (s.profils.filter (fun p => p.profileType == "business"))

/-- Result of ReviewsViewSet.perform_create. -/
inductive ReviewCreateRes where
  | err (msg : String)
  | ok (r : Review)
deriving Repr, DecidableEq

/-- ReviewsViewSet.perform_create: read business_user from request.data
(reject when falsy — absent, or the falsy number 0), raise a DRF
ValidationError (HTTP 400) when a review by this requester for that
business already exists, otherwise save the review with
reviewer := request.user. -/
def reviewsPerformCreate (s : Store) (nextReviewId : Nat) (requester : UserRec)
    (businessUser : Option Nat) (rating : Int) (description : String) :
    Store × ReviewCreateRes :=
  match businessUser with
  | none => (s, .err "A business_user must be specified.")
  | some b =>
    if b == 0 then (s, .err "A business_user must be specified.")
    else if s.reviews.any (fun r => r.businessUserId == b && r.reviewerId == requester.id) then
      (s, .err "You have already reviewed this business.")
    else
      let rv : Review := { id := nextReviewId, businessUserId := b,
                           reviewerId := requester.id, rating := rating,
                           description := description }
      ({ s with reviews := s.reviews ++ [rv] }, .ok rv)

/-- At most one Review per (reviewer, business_user) pair. -/
@[reducible]
def atMostOnePerPair (s : Store) : Prop :=
  s.reviews.Pairwise
    (fun r1 r2 => ¬ (r1.reviewerId = r2.reviewerId ∧ r1.businessUserId = r2.businessUserId))

/-- Writable fields of a PATCH /reviews/pk/ body under ReviewsSerializer
(fields = all of the model): rating, description and business_user; the
pk, reviewer and the timestamps are read-only and never enter
validated_data. -/
structure ReviewPatch where
  rating : Option Int
  description : Option String
  businessUser : Option Nat
deriving Repr, DecidableEq

/-- Outcome of ReviewsViewSet.perform_update in isolation: either
serializer.save() ran and produced a new store, or the method built a
Response object (with the given HTTP status and the offending field
names) and returned it instead of saving. -/
inductive PerformUpdateOutcome where
  | saved (s : Store)
  | builtResponse (code : Nat) (invalidFields : List String)
deriving Repr, DecidableEq

/-- ReviewsViewSet.perform_update, translated literally: a requester who
is neither the reviewer nor staff gets a constructed 403 Response; a
payload whose validated fields stray outside rating and description gets
a constructed 400 Response naming the disallowed fields; otherwise
serializer.save() applies rating and description.  Both Response objects
are RETURN values of perform_update, not raised exceptions. -/
def reviewsPerformUpdate (s : Store) (requester : UserRec) (inst : Review)
    (p : ReviewPatch) : PerformUpdateOutcome :=
  if inst.reviewerId != requester.id && !requester.isStaff then
    .builtResponse 403 []
  else
    let invalidFields := if p.businessUser.isSome then ["business_user"] else []
    if invalidFields != [] then
      .builtResponse 400 invalidFields
    else
      .saved (saveReview s { inst with rating := p.rating.getD inst.rating,
                                       description := p.description.getD inst.description })

/-- IsOwnerCustomerOrAdmin.has_object_permission: GET always passes; for
PATCH and DELETE the reviewer passes when they hold a customer profile,
otherwise staff passes; a requester without any profile is denied
outright by the except branch. -/
def isOwnerCustomerOrAdmin (s : Store) (requester : UserRec) (rv : Review)
    (method : String) : Bool :=
  if method == "GET" then true
  else if method == "PATCH" || method == "DELETE" then
    match s.profils.find? (fun p => p.userId == requester.id) with
    | none => false
    | some profil =>
      if profil.profileType == "customer" && rv.reviewerId == requester.id then true
      else requester.isStaff
  else false

/-- Result of the whole PATCH /reviews/pk/ request. -/
inductive ReviewsUpdateRes where
  | notFound
  | forbidden
  | badRequest
  | ok (code : Nat) (s : Store)
deriving Repr, DecidableEq

/-- The PATCH /reviews/pk/ request as executed by rest_framework's
UpdateModelMixin.update: get_object (404 when absent, object permissions
checked — IsCustomerForCreateOnly passes every non-POST request),
serializer validation (business_user must resolve to an existing User),
then self.perform_update(serializer) whose return value the mixin
DISCARDS, and finally Response(serializer.data) with HTTP 200.  A
Response object built and returned inside perform_update therefore never
reaches the client: the endpoint answers 200 with the store left as
perform_update left it. -/
def reviewsUpdateRequest (s : Store) (requester : UserRec) (reviewId : Nat)
    (p : ReviewPatch) : ReviewsUpdateRes :=
  match s.reviews.find? (fun r => r.id == reviewId) with
  | none => .notFound
  | some inst =>
    if !isOwnerCustomerOrAdmin s requester inst "PATCH" then .forbidden
    else if (match p.businessUser with
             | some b => !(s.users.any (fun u => u.id == b))
             | none => false) then .badRequest
    else
      match reviewsPerformUpdate s requester inst p with
      | .saved s2 => .ok 200 s2
      | .builtResponse _ _ => .ok 200 s

/-- Result of POST /registration/. -/
inductive RegisterRes where
  | response (code : Nat) (key msg : String)
  | unhandledDjangoValidationError
  | created (userId : Nat)
deriving Repr, DecidableEq

/-- Coarse model of django.core.validators.validate_email (framework
code, out of repository scope): accepts strings containing an at-sign
with nonempty sides.  The claims exercise it only on strings without an
at-sign, which every conforming email validator rejects. -/
def isValidEmailModel (e : String) : Bool :=
  let cs := e.toList
  cs.contains '@' && cs.head? != some '@' && cs.getLast? != some '@'

/-- Python truthiness of an optional string: None and the empty string
are falsy. -/
def pyFalsyStr : Option String → Bool
  | none => true
  | some s => s == ""

/-- RegisterAPIView.post: required-field checks, email format check,
password match, username and email uniqueness, then
User.objects.create_user plus Profil.objects.create.  The email check
calls validate_email inside try/except ValidationError — but the name
ValidationError is imported from rest_framework.exceptions (views.py
line 3) while validate_email raises django.core.exceptions.
ValidationError, a class the except clause does not match; the exception
therefore propagates out of the view unhandled (HTTP 500) and the
`return Response(400)` branch is dead code. -/
def registerPost (s : Store) (nextUserId : Nat)
    (username password repeatedPassword email profileType : Option String) :
    Store × RegisterRes :=
  if pyFalsyStr username then (s, .response 400 "error" "Username is required.")
  else if pyFalsyStr email then (s, .response 400 "error" "Email is required.")
  else if pyFalsyStr password then (s, .response 400 "error" "Password is required.")
  else if pyFalsyStr profileType then (s, .response 400 "error" "Profile type is required.")
  else if !(isValidEmailModel (email.getD "")) then
    (s, .unhandledDjangoValidationError)
  else if password != repeatedPassword then
    (s, .response 400 "password" "Passwords do not match.")
  else if s.users.any (fun u => u.username == username.getD "") then
    (s, .response 400 "error" "This username is already taken.")
  else if s.users.any (fun u => u.email == email.getD "") then
    (s, .response 400 "error" "This email is already in use.")
  else
    let u : UserRec := { id := nextUserId, username := username.getD "",
                         email := email.getD "", password := password.getD "",
                         isStaff := false }
    let pr : Profil := { userId := nextUserId, profileType := profileType.getD "" }
    ({ s with users := s.users ++ [u], profils := s.profils ++ [pr] }, .created nextUserId)

/-- Writable fields of a PATCH /offerdetails/pk/ body under
OfferDetailsSerializer (id read-only, offer read-only). -/
structure OfferDetailPatch where
  title : Option String
  revisions : Option Int
  deliveryTimeInDays : Option Int
  price : Option Int
  features : Option (List String)
  offerType : Option String
deriving Repr, DecidableEq

/-- Partial update of an OfferDetails row: setattr for each present key. -/
def applyOfferDetailPatch (d : OfferDetail) (p : OfferDetailPatch) : OfferDetail :=
  { d with title := p.title.getD d.title,
           revisions := p.revisions.getD d.revisions,
           deliveryTimeInDays := p.deliveryTimeInDays.getD d.deliveryTimeInDays,
           price := p.price.getD d.price,
           features := p.features.getD d.features,
           offerType := p.offerType.getD d.offerType }

/-- PATCH /offerdetails/pk/ through OfferDetailsViewSet.  The ViewSet
declares permission_classes = [IsAuthenticated] and nothing else: no
get_permissions override, no object-level ownership or staff check.  The
requester is none when unauthenticated (401); any authenticated
requester proceeds straight to the default ModelViewSet partial update. -/
def offerDetailsPartialUpdate (s : Store) (requester : Option UserRec)
    (detailId : Nat) (p : OfferDetailPatch) : Store × Nat :=
  match requester with
  | none => (s, 401)
  | some _ =>
    match s.offerDetails.find? (fun d => d.id == detailId) with
    | none => (s, 404)
    | some d =>
      let d2 := applyOfferDetailPatch d p
      ({ s with offerDetails := s.offerDetails.map (fun x => if x.id == d.id then d2 else x) }, 200)

/-- DELETE /offerdetails/pk/ through OfferDetailsViewSet: same single
IsAuthenticated gate, then the default ModelViewSet destroy (204). -/
def offerDetailsDestroy (s : Store) (requester : Option UserRec)
    (detailId : Nat) : Store × Nat :=
  match requester with
  | none => (s, 401)
  | some _ =>
    match s.offerDetails.find? (fun d => d.id == detailId) with
    | none => (s, 404)
    | some _ =>
      ({ s with offerDetails := s.offerDetails.filter (fun x => !(x.id == detailId)) }, 204)

/-! Concrete fixtures, mirroring the shapes used in coderr_app/tests. -/

/-- Fixture: a customer-typed user. -/
def uCustomer : UserRec :=
  { id := 1, username := "customer1", email := "customer1@mail.de", password := "pw1", isStaff := false }

/-- Fixture: a business-typed user. -/
def uBusiness : UserRec :=
  { id := 2, username := "business1", email := "business1@mail.de", password := "pw2", isStaff := false }

/-- Fixture: an unrelated authenticated user (no staff flag, owns nothing). -/
def uOther : UserRec :=
  { id := 3, username := "other1", email := "other1@mail.de", password := "pw3", isStaff := false }

/-- Fixture: an offer owned by the business user; its title deliberately
differs from its detail's title. -/
def offerFix : Offer :=
  { id := 1, userId := 2, title := "Website Offer", description := "Complete website",
    minPrice := 100, minDeliveryTime := 5 }

/-- Fixture: the basic-tier detail of offerFix. -/
def detailFix : OfferDetail :=
  { id := 11, offerId := 1, title := "Basic Package", revisions := 2, price := 100,
    deliveryTimeInDays := 5, features := ["Logo"], offerType := "basic" }

/-- Fixture: a review by the customer about the business user. -/
def reviewFix : Review :=
  { id := 1, businessUserId := 2, reviewerId := 1, rating := 5, description := "Great" }

/-- Fixture: an order already in the terminal completed state. -/
def orderFixCompleted : Order :=
  { id := 1, customerUser := .userRef 1, businessUser := .userRef 2, title := "Order Test",
    revisions := 1, status := "completed", offerType := "basic", price := 10,
    deliveryTimeInDays := 3, features := ["Test"] }

/-- Fixture store holding all of the above. -/
def baseStore : Store :=
  { users := [uCustomer, uBusiness, uOther],
    profils := [{ userId := 1, profileType := "customer" },
                { userId := 2, profileType := "business" }],
    offers := [offerFix],
    offerDetails := [detailFix],
    orders := [orderFixCompleted],
    reviews := [reviewFix] }

/-- Fixture: a basic-tier creation payload. -/
def dpBasic : DetailPayload :=
  { title := "Basic", revisions := some 1, price := 50, deliveryTimeInDays := some 3,
    features := ["Feature 1"], offerType := some "basic" }

/-- Fixture: a standard-tier creation payload. -/
def dpStandard : DetailPayload :=
  { title := "Standard", revisions := some 2, price := 80, deliveryTimeInDays := some 5,
    features := ["Feature 1"], offerType := some "standard" }

/-- Store produced by the fixture offer update used as a witness (PATCH
with no details list: only the aggregate recomputation runs). -/
def c4UpdStore : Store :=
  match performUpdate baseStore 1 30 none none none with
  | .ok s => s
  | _ => baseStore

/-- The offer row as saved by that fixture update. -/
def c4UpdOffer : Offer :=
  match c4UpdStore.offers.find? (fun o => o.id == 1) with
  | some o => o
  | none => offerFix

/-- Fixture: a partial update payload for an offer detail. -/
def odPatchFix : OfferDetailPatch :=
  { title := some "Changed", revisions := none, deliveryTimeInDays := none,
    price := some 120, features := none, offerType := none }

/-! Helper lemmas. -/

/-- A left fold with min over a list computes a member that bounds every
element from below. -/
theorem foldl_min_isMinOf (x : Int) (xs : List Int) : isMinOf (xs.foldl min x) (x :: xs) := by
  unfold isMinOf
  induction xs generalizing x with
  | nil => exact ⟨List.mem_singleton.mpr rfl, by simp⟩
  | cons y ys ih =>
    obtain ⟨hmem, hle⟩ := ih (min x y)
    have hminxy : ys.foldl min (min x y) ≤ min x y := hle _ (List.mem_cons_self _ _)
    refine ⟨?_, ?_⟩
    · show ys.foldl min (min x y) ∈ x :: y :: ys
      rcases List.mem_cons.mp hmem with hm | hm
      · rcases min_choice x y with hc | hc
        · rw [hm, hc]
          exact List.mem_cons_self _ _
        · rw [hm, hc]
          exact List.mem_cons.mpr (Or.inr (List.mem_cons_self _ _))
      · exact List.mem_cons.mpr (Or.inr (List.mem_cons.mpr (Or.inr hm)))
    · intro z hz
      show ys.foldl min (min x y) ≤ z
      rcases List.mem_cons.mp hz with hz1 | hz1
      · subst hz1
        exact le_trans hminxy (min_le_left _ _)
      · rcases List.mem_cons.mp hz1 with hz2 | hz2
        · subst hz2
          exact le_trans hminxy (min_le_right _ _)
        · exact hle z (List.mem_cons.mpr (Or.inr hz2))

/-- The Python guard `or 0` is the identity on a present aggregate. -/
theorem pyOr0_some (v : Int) : pyOr0 (some v) = v := by
  by_cases h : v = 0 <;> simp [pyOr0, h]

/-- On a nonempty column the saved aggregate is the true minimum. -/
theorem pyOr0_minAgg_isMinOf (xs : List Int) (h : xs ≠ []) : isMinOf (pyOr0 (minAgg xs)) xs := by
  cases xs with
  | nil => exact absurd rfl h
  | cons x ys =>
    rw [minAgg, pyOr0_some]
    exact foldl_min_isMinOf x ys

/-- recomputeAggregates leaves the detail table untouched, keeps the
primary key, and — when the offer has at least one detail — stores the
exact minima in the two aggregate columns. -/
theorem recomputeAggregates_spec (s : Store) (inst : Offer) :
    ((recomputeAggregates s inst).1).offerDetails = s.offerDetails ∧
    (recomputeAggregates s inst).2.id = inst.id ∧
    (s.offerDetails.filter (fun d => d.offerId == inst.id) ≠ [] →
      isMinOf (recomputeAggregates s inst).2.minPrice
        ((s.offerDetails.filter (fun d => d.offerId == inst.id)).map (fun d => d.price)) ∧
      isMinOf (recomputeAggregates s inst).2.minDeliveryTime
        ((s.offerDetails.filter (fun d => d.offerId == inst.id)).map (fun d => d.deliveryTimeInDays))) := by
  refine ⟨rfl, rfl, fun hne => ⟨?_, ?_⟩⟩
  · exact pyOr0_minAgg_isMinOf _ (by simpa using hne)
  · exact pyOr0_minAgg_isMinOf _ (by simpa using hne)

/-- createDetails yields one row per payload entry. -/
theorem createDetails_length (oid : Nat) (nid : Nat) (ds : List DetailPayload) :
    (createDetails oid nid ds).length = ds.length := by
  induction ds generalizing nid with
  | nil => rfl
  | cons p ps ih => simp [createDetails, ih]

/-- Every row built by createDetails belongs to the given offer. -/
theorem createDetails_offerId (oid : Nat) (nid : Nat) (ds : List DetailPayload) :
    ∀ d ∈ createDetails oid nid ds, d.offerId = oid := by
  induction ds generalizing nid with
  | nil => intro d hd; cases hd
  | cons p ps ih =>
    intro d hd
    rcases List.mem_cons.mp hd with h | h
    · rw [h]
    · exact ih (nid + 1) d h

/-- Replacing every offer row carrying a given primary key rewrites what
find? locates under that key. -/
theorem find?_offers_replace (l : List Offer) (n : Nat) (d2 : Offer)
    (hd : ∃ d, l.find? (fun x => x.id == n) = some d) (hid : d2.id = n) :
    (l.map (fun x => if x.id == d2.id then d2 else x)).find? (fun x => x.id == n) = some d2 := by
  induction l with
  | nil =>
    obtain ⟨d, hd⟩ := hd
    simp at hd
  | cons x xs ih =>
    rw [List.map_cons]
    by_cases hx : x.id = n
    · have hfx : (if (x.id == d2.id) = true then d2 else x) = d2 := by
        rw [if_pos (beq_iff_eq.mpr (show x.id = d2.id by rw [hid]; exact hx))]
      rw [hfx]
      exact List.find?_cons_of_pos _ (beq_iff_eq.mpr hid)
    · have hfx : (if (x.id == d2.id) = true then d2 else x) = x := by
        rw [if_neg]
        simp [hid, hx]
      rw [hfx, List.find?_cons_of_neg _ (by simp [hx])]
      apply ih
      obtain ⟨d, hd⟩ := hd
      rw [List.find?_cons_of_neg _ (by simp [hx])] at hd
      exact ⟨d, hd⟩

/-- The detail-merge loop never touches the offers table. -/
theorem mergeLoop_offers (oid : Nat) (ps : List DetailPatch) (s : Store) (nid : Nat)
    (proc : List String) (s3 : Store) (proc2 : List String)
    (h : mergeLoop oid s nid proc ps = .ok s3 proc2) : s3.offers = s.offers := by
  induction ps generalizing s nid proc with
  | nil =>
    unfold mergeLoop at h
    cases h
    rfl
  | cons p rest ih =>
    unfold mergeLoop at h
    split at h
    · cases h
    · split at h
      · have hrec := ih _ _ _ h
        rw [hrec]
        rfl
      · split at h
        · cases h
        · have hrec := ih _ _ _ h
          rw [hrec]

/-- Every successful offer update factors as: locate the instance, apply
the standard-field patch, mutate the detail table somehow without
touching the offers table, then recompute the aggregates and save. -/
theorem performUpdate_ok_shape (s : Store) (oid did : Nat) (tp dp : Option String)
    (dd : Option (List DetailPatch)) (s2a : Store)
    (h : performUpdate s oid did tp dp dd = .ok s2a) :
    ∃ inst sMid, s.offers.find? (fun o => o.id == oid) = some inst ∧
      sMid.offers = s.offers ∧
      s2a = (recomputeAggregates sMid (patchStdFields inst tp dp)).1 := by
  unfold performUpdate at h
  split at h
  · cases h
  · rename_i inst hfind
    split at h
    · cases h
      exact ⟨inst, s, hfind, rfl, rfl⟩
    · rename_i ps
      split at h
      · cases h
      · cases h
      · rename_i s3 processed hml
        cases h
        exact ⟨inst, deleteStaleDetails s3 oid processed, hfind,
               mergeLoop_offers oid ps s did [] s3 processed hml, rfl⟩

/-- After an insert of detail rows that all belong to the new offer, the
detail rows of that offer form a nonempty list whenever the payload was
nonempty. -/
theorem offersCreate_filter_ne (s : Store) (oid did uid : Nat) (t d : String)
    (ds : List DetailPayload) (hne : ds ≠ []) :
    ({ s with offers := s.offers ++ [offerRowFromPayload oid uid t d],
              offerDetails := s.offerDetails ++ createDetails oid did ds } : Store).offerDetails.filter
      (fun x => x.offerId == (offerRowFromPayload oid uid t d).id) ≠ [] := by
  have hself : (createDetails oid did ds).filter
      (fun x => x.offerId == (offerRowFromPayload oid uid t d).id) = createDetails oid did ds := by
    apply List.filter_eq_self.mpr
    intro a ha
    simp [offerRowFromPayload, createDetails_offerId oid did ds a ha]
  show (s.offerDetails ++ createDetails oid did ds).filter
      (fun x => x.offerId == (offerRowFromPayload oid uid t d).id) ≠ []
  rw [List.filter_append, hself]
  intro hcontra
  have hnd : createDetails oid did ds = [] := (List.append_eq_nil.mp hcontra).2
  have hlen := createDetails_length oid did ds
  rw [hnd] at hlen
  exact hne (List.eq_nil_of_length_eq_zero hlen.symm)

/-- After OffersSerializer.create the stored aggregates are the true
minima over the details of the new offer. -/
theorem offersCreate_aggregates (s : Store) (oid did uid : Nat) (t d : String)
    (ds : List DetailPayload) (hne : ds ≠ []) :
    isMinOf (offersCreate s oid did uid t d ds).2.minPrice
      (((offersCreate s oid did uid t d ds).1.offerDetails.filter
          (fun x => x.offerId == oid)).map (fun x => x.price)) ∧
    isMinOf (offersCreate s oid did uid t d ds).2.minDeliveryTime
      (((offersCreate s oid did uid t d ds).1.offerDetails.filter
          (fun x => x.offerId == oid)).map (fun x => x.deliveryTimeInDays)) := by
  obtain ⟨hdet, hid, hmin⟩ := recomputeAggregates_spec
    { s with offers := s.offers ++ [offerRowFromPayload oid uid t d],
             offerDetails := s.offerDetails ++ createDetails oid did ds }
    (offerRowFromPayload oid uid t d)
  exact hmin (offersCreate_filter_ne s oid did uid t d ds hne)

/-- After a successful OffersViewSet.perform_update the saved offer row
carries the true minima over the surviving details of the offer. -/
theorem performUpdate_aggregates (s : Store) (oid did : Nat) (tp dp : Option String)
    (dd : Option (List DetailPatch)) (s2a : Store) (o2 : Offer)
    (hupd : performUpdate s oid did tp dp dd = .ok s2a)
    (ho2 : s2a.offers.find? (fun o => o.id == oid) = some o2)
    (hne : s2a.offerDetails.filter (fun x => x.offerId == oid) ≠ []) :
    isMinOf o2.minPrice
      ((s2a.offerDetails.filter (fun x => x.offerId == oid)).map (fun x => x.price)) ∧
    isMinOf o2.minDeliveryTime
      ((s2a.offerDetails.filter (fun x => x.offerId == oid)).map (fun x => x.deliveryTimeInDays)) := by
  obtain ⟨inst, sMid, hfind, hoff, heq⟩ := performUpdate_ok_shape s oid did tp dp dd s2a hupd
  subst heq
  obtain ⟨hdet, hid, hmin⟩ := recomputeAggregates_spec sMid (patchStdFields inst tp dp)
  have hfindP := List.find?_some hfind
  have hinstId : inst.id = oid := by simpa using hfindP
  have hpid : (patchStdFields inst tp dp).id = oid := hinstId
  rw [hpid] at hmin
  rw [hdet] at hne
  obtain ⟨hp, hdlv⟩ := hmin hne
  have ho2eq : o2 = (recomputeAggregates sMid (patchStdFields inst tp dp)).2 := by
    have hfindRep : ((recomputeAggregates sMid (patchStdFields inst tp dp)).1).offers.find?
        (fun o => o.id == oid) = some (recomputeAggregates sMid (patchStdFields inst tp dp)).2 := by
      show (sMid.offers.map (fun x =>
        if x.id == (recomputeAggregates sMid (patchStdFields inst tp dp)).2.id
        then (recomputeAggregates sMid (patchStdFields inst tp dp)).2 else x)).find?
          (fun o => o.id == oid) = some (recomputeAggregates sMid (patchStdFields inst tp dp)).2
      apply find?_offers_replace
      · rw [hoff]
        exact ⟨inst, hfind⟩
      · rw [hid]
        exact hpid
    rw [hfindRep] at ho2
    exact (Option.some.inj ho2).symm
  constructor
  · rw [ho2eq, hdet]
    exact hp
  · rw [ho2eq, hdet]
    exact hdlv

/-! Claim theorems. -/

/-- C1, counterexample.  The claim says an offer-creation payload with a
detail count different from 3 is rejected and nothing is persisted.  On
the code, a payload with 2 details goes straight through
OffersSerializer.create: the store gains one Offers row and two
OfferDetails rows, so the claim as stated is false at this input. -/
theorem offers_create_count_counterexample :
    ([dpBasic, dpStandard] : List DetailPayload).length ≠ 3 ∧
    (offersCreate baseStore 2 20 2 "New Offer" "Description" [dpBasic, dpStandard]).1.offers.length = 2 ∧
    (offersCreate baseStore 2 20 2 "New Offer" "Description" [dpBasic, dpStandard]).1.offerDetails.length = 3 ∧
    (offersCreate baseStore 2 20 2 "New Offer" "Description" [dpBasic, dpStandard]).1 ≠ baseStore := by
  decide

/-- C1, amended.  OffersSerializer.create performs no detail-count
validation: for every validated payload, whatever the number of supplied
details (in particular any number different from 3), the Offers row and
one OfferDetails row per supplied detail are persisted. -/
theorem offers_create_persists_any_detail_count (s : Store) (oid did uid : Nat)
    (t d : String) (ds : List DetailPayload) (_hcount : ds.length ≠ 3) :
    (offersCreate s oid did uid t d ds).1.offers.length = s.offers.length + 1 ∧
    (offersCreate s oid did uid t d ds).1.offerDetails.length
      = s.offerDetails.length + ds.length := by
  unfold offersCreate recomputeAggregates saveOffer
  simp [createDetails_length]

/-- C1, witness for the amended theorem. -/
theorem offers_create_persists_any_detail_count_witness :
    ([dpBasic] : List DetailPayload).length ≠ 3 ∧
    ((offersCreate baseStore 2 20 2 "T" "D" [dpBasic]).1.offers.length
       = baseStore.offers.length + 1 ∧
     (offersCreate baseStore 2 20 2 "T" "D" [dpBasic]).1.offerDetails.length
       = baseStore.offerDetails.length + [dpBasic].length) :=
  ⟨by decide, offers_create_persists_any_detail_count baseStore 2 20 2 "T" "D" [dpBasic] (by decide)⟩

/-- C2.  Evaluating OrderCreateSerializer.create on the fixture: the
customer orders OfferDetails row 11 (title "Basic Package") of the offer
titled "Website Offer".  The created Orders row takes its title from the
parent Offer, not from the OfferDetail, and its customer_user receives
the requesting user's Profil instance rather than the User — a value the
ORM's foreign-key type check rejects at runtime. -/
theorem order_create_title_and_customer_divergence :
    (orderCreate baseStore 5 uCustomer 11).2 =
      .ok { id := 5, customerUser := .profilRef 1, businessUser := .userRef 2,
            title := "Website Offer", revisions := 2, status := "in_progress",
            offerType := "basic", price := 100, deliveryTimeInDays := 5,
            features := ["Logo"] } ∧
    detailFix.title = "Basic Package" ∧
    offerFix.title = "Website Offer" ∧
    ("Website Offer" : String) ≠ detailFix.title ∧
    PartyRef.profilRef 1 ≠ PartyRef.userRef uCustomer.id := by
  decide

/-- C3.  BusinessProfilesListView carries permission_classes =
[IsAuthenticated], so the unauthenticated GET that the claim (and the
repository's own test test_get_business_profiles) expects to answer 200
with the business profiles is instead rejected with 401; the same
request with any authenticated user returns the list. -/
theorem business_profiles_unauthenticated_401 :
    businessProfilesList baseStore none = .err 401 ∧
    businessProfilesList baseStore (some uCustomer) =
      .ok [{ userId := 2, profileType := "business" }] := by
  decide

/-- C5, counterexample.  The fixture order is in the terminal state
completed; a PATCH carrying status in_progress is accepted by
OrdersViewSet.update and the stored status becomes in_progress again, so
completed is not terminal and the claim as stated is false. -/
theorem order_terminal_status_counterexample :
    orderFixCompleted.status = "completed" ∧
    ordersUpdate baseStore 1 { status := some "in_progress", extra := [] } =
      .ok (saveOrder baseStore { orderFixCompleted with status := "in_progress" })
          { orderFixCompleted with status := "in_progress" } ∧
    ({ orderFixCompleted with status := "in_progress" } : Order).status ≠ "completed" := by
  decide

/-- C7.  The review's own reviewer PATCHes a payload containing the
disallowed field business_user (a valid user id, so serializer
validation passes).  perform_update builds the 400 Response naming
business_user but returns it; rest_framework's UpdateModelMixin discards
that return value, so the request answers 200 and the stored review is
unchanged — the claimed 400 rejection never reaches the client. -/
theorem review_update_disallowed_field_answers_200 :
    reviewsPerformUpdate baseStore uCustomer reviewFix
        { rating := none, description := none, businessUser := some 3 } =
      .builtResponse 400 ["business_user"] ∧
    reviewsUpdateRequest baseStore uCustomer 1
        { rating := none, description := none, businessUser := some 3 } =
      .ok 200 baseStore := by
  decide

/-- C8.  A registration whose email has no at-sign: validate_email
raises django.core.exceptions.ValidationError, the except clause names
rest_framework.exceptions.ValidationError, so the exception escapes the
view unhandled (HTTP 500, not the claimed 400) while — as the claim also
says — no User row and no Profil row is created (store unchanged). -/
theorem register_invalid_email_unhandled_exception :
    registerPost baseStore 9 (some "newuser") (some "pw") (some "pw")
        (some "invalid-email") (some "customer") =
      (baseStore, .unhandledDjangoValidationError) := by
  decide

/-- C4.  After every offer creation (nonempty validated detail payload)
and after every successful offer update in which the offer keeps at
least one detail, the saved offer row's min_price is the minimum price
among the offer's OfferDetails rows and min_delivery_time is the minimum
delivery_time_in_days among them. -/
theorem offer_min_aggregates_invariant
    (s1 : Store) (oid1 did1 uid1 : Nat) (t1 d1 : String) (ds1 : List DetailPayload)
    (hne1 : ds1 ≠ [])
    (s2 : Store) (oid2 did2 : Nat) (tp dp : Option String)
    (dd : Option (List DetailPatch)) (s2a : Store) (o2 : Offer)
    (hupd : performUpdate s2 oid2 did2 tp dp dd = .ok s2a)
    (ho2 : s2a.offers.find? (fun o => o.id == oid2) = some o2)
    (hne2 : s2a.offerDetails.filter (fun x => x.offerId == oid2) ≠ []) :
    (isMinOf (offersCreate s1 oid1 did1 uid1 t1 d1 ds1).2.minPrice
       (((offersCreate s1 oid1 did1 uid1 t1 d1 ds1).1.offerDetails.filter
           (fun x => x.offerId == oid1)).map (fun x => x.price)) ∧
     isMinOf (offersCreate s1 oid1 did1 uid1 t1 d1 ds1).2.minDeliveryTime
       (((offersCreate s1 oid1 did1 uid1 t1 d1 ds1).1.offerDetails.filter
           (fun x => x.offerId == oid1)).map (fun x => x.deliveryTimeInDays))) ∧
    (isMinOf o2.minPrice
       ((s2a.offerDetails.filter (fun x => x.offerId == oid2)).map (fun x => x.price)) ∧
     isMinOf o2.minDeliveryTime
       ((s2a.offerDetails.filter (fun x => x.offerId == oid2)).map (fun x => x.deliveryTimeInDays))) :=
  ⟨offersCreate_aggregates s1 oid1 did1 uid1 t1 d1 ds1 hne1,
   performUpdate_aggregates s2 oid2 did2 tp dp dd s2a o2 hupd ho2 hne2⟩

/-- C4, witness: a creation with two details priced 50 and 80, and the
fixture update (no details key in the body) that recomputes over the
fixture offer's single detail. -/
theorem offer_min_aggregates_invariant_witness :
    ([dpBasic, dpStandard] : List DetailPayload) ≠ [] ∧
    performUpdate baseStore 1 30 none none none = .ok c4UpdStore ∧
    c4UpdStore.offers.find? (fun o => o.id == 1) = some c4UpdOffer ∧
    c4UpdStore.offerDetails.filter (fun x => x.offerId == 1) ≠ [] ∧
    ((isMinOf (offersCreate baseStore 2 20 2 "T" "D" [dpBasic, dpStandard]).2.minPrice
        (((offersCreate baseStore 2 20 2 "T" "D" [dpBasic, dpStandard]).1.offerDetails.filter
            (fun x => x.offerId == 2)).map (fun x => x.price)) ∧
      isMinOf (offersCreate baseStore 2 20 2 "T" "D" [dpBasic, dpStandard]).2.minDeliveryTime
        (((offersCreate baseStore 2 20 2 "T" "D" [dpBasic, dpStandard]).1.offerDetails.filter
            (fun x => x.offerId == 2)).map (fun x => x.deliveryTimeInDays))) ∧
     (isMinOf c4UpdOffer.minPrice
        ((c4UpdStore.offerDetails.filter (fun x => x.offerId == 1)).map (fun x => x.price)) ∧
      isMinOf c4UpdOffer.minDeliveryTime
        ((c4UpdStore.offerDetails.filter (fun x => x.offerId == 1)).map
          (fun x => x.deliveryTimeInDays)))) :=
  ⟨by decide, by decide, by decide, by decide,
   offer_min_aggregates_invariant baseStore 2 20 2 "T" "D" [dpBasic, dpStandard] (by decide)
     baseStore 1 30 none none none c4UpdStore c4UpdOffer (by decide) (by decide) (by decide)⟩

/-- C5, amended.  OrdersViewSet.update has no terminal-state guard: for
every existing order, whatever its current status (including completed
and cancelled), a PATCH carrying any declared status value is accepted
and overwrites the stored status. -/
theorem order_status_update_ignores_current_status (s : Store) (oid : Nat) (inst : Order)
    (ns : String) (extra : List (String × String))
    (hfind : s.orders.find? (fun o => o.id == oid) = some inst)
    (hns : statusChoices.contains ns = true) :
    ordersUpdate s oid { status := some ns, extra := extra } =
      .ok (saveOrder s { inst with status := ns }) { inst with status := ns } := by
  have hmem : ns ∈ statusChoices := by simpa using hns
  unfold ordersUpdate
  rw [hfind]
  simp [hns, hmem]

/-- C5, witness: reopening the completed fixture order. -/
theorem order_status_update_ignores_current_status_witness :
    baseStore.orders.find? (fun o => o.id == 1) = some orderFixCompleted ∧
    statusChoices.contains "in_progress" = true ∧
    ordersUpdate baseStore 1 { status := some "in_progress", extra := [] } =
      .ok (saveOrder baseStore { orderFixCompleted with status := "in_progress" })
          { orderFixCompleted with status := "in_progress" } :=
  ⟨by decide, by decide,
   order_status_update_ignores_current_status baseStore 1 orderFixCompleted "in_progress" []
     (by decide) (by decide)⟩

/-- C6.  A successful PATCH /orders/pk/ mutates only the status column:
the returned (and saved) order agrees with the fetched instance on
title, revisions, delivery_time_in_days, price, features, offer_type,
customer_user and business_user, whatever else the request body
contained. -/
theorem order_update_mutates_only_status (s : Store) (oid : Nat) (payload : OrdersPatch)
    (inst : Order) (s2 : Store) (o2 : Order)
    (hfind : s.orders.find? (fun o => o.id == oid) = some inst)
    (hok : ordersUpdate s oid payload = .ok s2 o2) :
    o2.title = inst.title ∧ o2.revisions = inst.revisions ∧
    o2.deliveryTimeInDays = inst.deliveryTimeInDays ∧ o2.price = inst.price ∧
    o2.features = inst.features ∧ o2.offerType = inst.offerType ∧
    o2.customerUser = inst.customerUser ∧ o2.businessUser = inst.businessUser := by
  unfold ordersUpdate at hok
  split at hok
  · cases hok
  · rename_i inst2 hfind2
    rw [hfind] at hfind2
    cases Option.some.inj hfind2
    split at hok
    · cases hok
    · split at hok
      · cases hok
        exact ⟨rfl, rfl, rfl, rfl, rfl, rfl, rfl, rfl⟩
      · cases hok

/-- C6, witness: completing the fixture order with an extra ignored body
key. -/
theorem order_update_mutates_only_status_witness :
    baseStore.orders.find? (fun o => o.id == 1) = some orderFixCompleted ∧
    ordersUpdate baseStore 1 { status := some "cancelled", extra := [("note", "ignored")] } =
      .ok (saveOrder baseStore { orderFixCompleted with status := "cancelled" })
          { orderFixCompleted with status := "cancelled" } ∧
    (({ orderFixCompleted with status := "cancelled" } : Order).title = orderFixCompleted.title ∧
     ({ orderFixCompleted with status := "cancelled" } : Order).revisions = orderFixCompleted.revisions ∧
     ({ orderFixCompleted with status := "cancelled" } : Order).deliveryTimeInDays = orderFixCompleted.deliveryTimeInDays ∧
     ({ orderFixCompleted with status := "cancelled" } : Order).price = orderFixCompleted.price ∧
     ({ orderFixCompleted with status := "cancelled" } : Order).features = orderFixCompleted.features ∧
     ({ orderFixCompleted with status := "cancelled" } : Order).offerType = orderFixCompleted.offerType ∧
     ({ orderFixCompleted with status := "cancelled" } : Order).customerUser = orderFixCompleted.customerUser ∧
     ({ orderFixCompleted with status := "cancelled" } : Order).businessUser = orderFixCompleted.businessUser) :=
  ⟨by decide, by decide,
   order_update_mutates_only_status baseStore 1
     { status := some "cancelled", extra := [("note", "ignored")] } orderFixCompleted
     (saveOrder baseStore { orderFixCompleted with status := "cancelled" })
     { orderFixCompleted with status := "cancelled" } (by decide) (by decide)⟩

/-- C9.  Sequentially, ReviewsViewSet.perform_create preserves the
at-most-one-review-per-(reviewer, business) invariant, and a second
create attempt by a reviewer who already reviewed this business is
rejected with a validation error while the store is unchanged. -/
theorem review_unique_per_pair (s : Store) (nid : Nat) (u : UserRec) (b : Nat)
    (rating : Int) (descr : String) (hinv : atMostOnePerPair s) :
    atMostOnePerPair (reviewsPerformCreate s nid u (some b) rating descr).1 ∧
    ((∃ r ∈ s.reviews, r.reviewerId = u.id ∧ r.businessUserId = b) →
      (reviewsPerformCreate s nid u (some b) rating descr).1 = s ∧
      ∃ msg, (reviewsPerformCreate s nid u (some b) rating descr).2 = .err msg) := by
  by_cases hb : (b == 0) = true
  · constructor
    · simpa [reviewsPerformCreate, hb] using hinv
    · intro _
      exact ⟨by simp [reviewsPerformCreate, hb],
             ⟨"A business_user must be specified.", by simp [reviewsPerformCreate, hb]⟩⟩
  · by_cases hdup : (s.reviews.any fun r => r.businessUserId == b && r.reviewerId == u.id) = true
    · constructor
      · simpa [reviewsPerformCreate, hb, hdup] using hinv
      · intro _
        exact ⟨by simp [reviewsPerformCreate, hb, hdup],
               ⟨"You have already reviewed this business.",
                by simp [reviewsPerformCreate, hb, hdup]⟩⟩
    · have hnone : ∀ r ∈ s.reviews, ¬ (r.businessUserId = b ∧ r.reviewerId = u.id) := by
        intro r hr hcon
        apply hdup
        rw [List.any_eq_true]
        exact ⟨r, hr, by simp [hcon.1, hcon.2]⟩
      constructor
      · have hnew : (reviewsPerformCreate s nid u (some b) rating descr).1.reviews
            = s.reviews ++ [{ id := nid, businessUserId := b, reviewerId := u.id,
                              rating := rating, description := descr }] := by
          simp [reviewsPerformCreate, hb, hdup]
        unfold atMostOnePerPair
        rw [hnew, List.pairwise_append]
        refine ⟨hinv, List.pairwise_singleton _ _, ?_⟩
        intro r1 h1 r2 h2 hcon
        have hr2 : r2 = { id := nid, businessUserId := b, reviewerId := u.id,
                          rating := rating, description := descr } := List.mem_singleton.mp h2
        rw [hr2] at hcon
        exact hnone r1 h1 ⟨hcon.2, hcon.1⟩
      · intro hdupEx
        exfalso
        obtain ⟨r, hr, h1, h2⟩ := hdupEx
        exact hnone r hr ⟨h2, h1⟩

/-- C9, witness: the fixture reviewer attempting a second review of the
same business. -/
theorem review_unique_per_pair_witness :
    atMostOnePerPair baseStore ∧
    (atMostOnePerPair (reviewsPerformCreate baseStore 2 uCustomer (some 2) 4 "Again").1 ∧
     ((∃ r ∈ baseStore.reviews, r.reviewerId = uCustomer.id ∧ r.businessUserId = 2) →
       (reviewsPerformCreate baseStore 2 uCustomer (some 2) 4 "Again").1 = baseStore ∧
       ∃ msg, (reviewsPerformCreate baseStore 2 uCustomer (some 2) 4 "Again").2 = .err msg)) :=
  ⟨by decide, review_unique_per_pair baseStore 2 uCustomer 2 4 "Again" (by decide)⟩

/-- C10.  The standalone /offerdetails/pk/ route checks authentication
only: an authenticated requester who is neither staff nor the owner of
the detail's parent offer can still PATCH the detail (200, patched row
stored) and DELETE it (204, row gone). -/
theorem offerdetails_any_authenticated_user_may_mutate
    (s : Store) (u : UserRec) (d : OfferDetail) (po : Offer) (p : OfferDetailPatch)
    (hd : s.offerDetails.find? (fun x => x.id == d.id) = some d)
    (_hpo : s.offers.find? (fun o => o.id == d.offerId) = some po)
    (_hnotOwner : u.id ≠ po.userId) (_hnotStaff : u.isStaff = false) :
    ((offerDetailsPartialUpdate s (some u) d.id p).2 = 200 ∧
     applyOfferDetailPatch d p ∈ (offerDetailsPartialUpdate s (some u) d.id p).1.offerDetails) ∧
    ((offerDetailsDestroy s (some u) d.id).2 = 204 ∧
     d ∉ (offerDetailsDestroy s (some u) d.id).1.offerDetails) := by
  have hdmem : d ∈ s.offerDetails := List.mem_of_find?_eq_some hd
  refine ⟨⟨?_, ?_⟩, ⟨?_, ?_⟩⟩
  · simp [offerDetailsPartialUpdate, hd]
  · simp only [offerDetailsPartialUpdate, hd]
    exact List.mem_map.mpr ⟨d, hdmem, by simp⟩
  · simp [offerDetailsDestroy, hd]
  · simp only [offerDetailsDestroy, hd]
    intro hmem
    rw [List.mem_filter] at hmem
    simp at hmem

/-- C10, witness: the unrelated authenticated user uOther mutating the
business user's fixture detail. -/
theorem offerdetails_any_authenticated_user_may_mutate_witness :
    baseStore.offerDetails.find? (fun x => x.id == detailFix.id) = some detailFix ∧
    baseStore.offers.find? (fun o => o.id == detailFix.offerId) = some offerFix ∧
    uOther.id ≠ offerFix.userId ∧
    uOther.isStaff = false ∧
    (((offerDetailsPartialUpdate baseStore (some uOther) detailFix.id odPatchFix).2 = 200 ∧
      applyOfferDetailPatch detailFix odPatchFix ∈
        (offerDetailsPartialUpdate baseStore (some uOther) detailFix.id odPatchFix).1.offerDetails) ∧
     ((offerDetailsDestroy baseStore (some uOther) detailFix.id).2 = 204 ∧
      detailFix ∉ (offerDetailsDestroy baseStore (some uOther) detailFix.id).1.offerDetails)) :=
  ⟨by decide, by decide, by decide, by decide,
   offerdetails_any_authenticated_user_may_mutate baseStore uOther detailFix offerFix odPatchFix
     (by decide) (by decide) (by decide) (by decide)⟩

end Coderr
